import Mathlib

/-
Verification of the go-storage fio engine shim (go-storage-fio-engine.c)
and of the completion-tracker / file-handle contract of the storage engine
it drives.

The shim's C functions are embedded as pure Lean functions.  Where the shim
calls into the external storage engine, the engine call's result is either a
parameter of the embedded function (when a claim only concerns the shim's
handling of that result) or a definition modelled from the specification of
the engine (when the claim concerns the engine's own contract; those
definitions carry a `Modelled from the spec:` doc comment).
-/

namespace GoStorage

/-- errno constant EINVAL (invalid argument), as used by the shim. -/
def EINVAL : Int := 22

/-- errno constant for a generic input/output error, as used by the shim. -/
def EIO : Int := 5

/-- fio queue status: the request completed synchronously. -/
def FIO_Q_COMPLETED : Int := 0

/-- fio queue status: the request was queued for asynchronous execution. -/
def FIO_Q_QUEUED : Int := 1

/-- fio data-direction bit for reads (TD_DDIR_READ). -/
def TD_DDIR_READ : Nat := 1

/-- fio data-direction bit for writes (TD_DDIR_WRITE). -/
def TD_DDIR_WRITE : Nat := 2

/-- fio data-direction mask for mixed read-write (TD_DDIR_RW). -/
def TD_DDIR_RW : Nat := TD_DDIR_READ ||| TD_DDIR_WRITE

/-- The fields of fio's `struct thread_data` that the shim reads or writes:
`io_ops_data` (the engine session handle slot, NULL modelled as `none`),
the configured `iodepth`, the `odirect` flag and the job data direction. -/
structure ThreadData where
  io_ops_data : Option Nat
  iodepth : Nat
  odirect : Bool
  td_ddir : Nat
deriving DecidableEq, Repr

/-- fio's `td_read` macro: the job direction has the read bit set. -/
def td_read (td : ThreadData) : Bool :=
  td.td_ddir &&& TD_DDIR_READ != 0

/-- fio's `td_write` macro: the job direction has the write bit set. -/
def td_write (td : ThreadData) : Bool :=
  td.td_ddir &&& TD_DDIR_WRITE != 0

/-- fio's `td_rw` macro: the job direction has both read and write bits set. -/
def td_rw (td : ThreadData) : Bool :=
  td.td_ddir &&& TD_DDIR_RW == TD_DDIR_RW

/-- The fields of fio's `struct fio_file` that the shim reads or writes:
the file name, the engine handle slot `engine_data` (NULL modelled as
`none`, a nonzero GoUintptr as `some`), and `io_size`. -/
structure FioFile where
  file_name : String
  engine_data : Option Nat
  io_size : Nat
deriving DecidableEq, Repr

/-- The fields of fio's `struct io_u` that the shim reads or writes:
the request offset, transfer length and error slot. -/
structure IoU where
  offset : Nat
  xfer_buflen : Nat
  error : Int
deriving DecidableEq, Repr

/-- An engine open call issued by the shim (which entry point, with which
arguments), recorded so that theorems can speak about whether and how the
engine was invoked. -/
inductive OpenCall where
  | readonly (odirect : Bool) (name : String)
  | writeonly (odirect : Bool) (name : String)
deriving DecidableEq, Repr

/-- `go_storage_open_file` from the shim.  `openR` and `openW` are the
GoUintptr values the engine open calls would return (0 = failure).  The
result is the C return value, the updated `fio_file`, and the list of
engine open calls issued. -/
def go_storage_open_file (td : ThreadData) (f : FioFile) (openR openW : Nat) :
    Int × FioFile × List OpenCall :=
  if td_rw td then ( EINVAL, f, [])
  else
    let s1 : Nat × List OpenCall :=
      if td_read td then (openR, [OpenCall.readonly td.odirect f.file_name])
      else (0, [])
    let s2 : Nat × List OpenCall :=
      if td.td_ddir = TD_DDIR_WRITE then
        (openW, s1.2 ++ [OpenCall.writeonly td.odirect f.file_name])
      else s1
    if s2.1 = 0 then ( EIO, f, s2.2)
    else (0, { f with engine_data := some s2.1 }, s2.2)

/-- `go_storage_close_file` from the shim.  `ok` is the boolean returned by
the engine's `GoStorageClose`.  The result is the C return value and the
updated `fio_file`. -/
def go_storage_close_file (f : FioFile) (ok : Bool) : Int × FioFile :=
  ((if ok then 0 else EIO), { f with engine_data := none })

/-- `go_storage_queue` from the shim.  `result` is the int returned by the
engine's `GoStorageQueue` for this request.  The result is the returned
`fio_q_status` and the updated `io_u`. -/
def go_storage_queue (iou : IoU) (result : Int) : Int × IoU :=
  if result < 0 then (FIO_Q_COMPLETED, { iou with error := EIO })
  else (result, iou)

/-- `go_storage_event` from the shim.  `r0` is the `io_u*` token returned by
the engine's `GoStorageGetEvent` (NULL modelled as `none`) and `r1` its ok
flag.  Writing through a NULL pointer is modelled as `Except.error ()`;
otherwise the returned pointer (with `error` set to EIO when the completion
failed) is `Except.ok`. -/
def go_storage_event (r0 : Option IoU) (r1 : Bool) : Except Unit (Option IoU) :=
  if r1 then Except.ok r0
  else
    match r0 with
    | none => Except.error ()
    | some iou => Except.ok (some { iou with error := EIO })

/-- `go_storage_init` from the shim.  `initResult` is the GoUintptr the
engine's `GoStorageInit` would return (0 = failure).  The result is the C
return value, the updated `thread_data`, and whether the engine was
invoked. -/
def go_storage_init (td : ThreadData) (initResult : Nat) :
    Int × ThreadData × Bool :=
  if td.io_ops_data.isSome then (0, td, false)
  else if initResult = 0 then (1, td, true)
  else (0, { td with io_ops_data := some initResult }, true)

/-- `GoStoragePrepopulateFile`, the engine's synchronous prepopulation call.
Modelled from the spec: prepopulation reads `size` bytes from the path and
"returns failure if the read could not be completed in full"; `bytesRead`
is the number of bytes the environment actually delivered. -/
def GoStoragePrepopulateFile (bytesRead size : Nat) : Bool :=
  bytesRead == size

/-- `go_storage_prepopulate_file` from the shim.  `bytesRead` is the number
of bytes the engine's read actually delivered.  The result is the C return
value and whether the engine's prepopulate operation was invoked. -/
def go_storage_prepopulate_file (td : ThreadData) (f : FioFile)
    (bytesRead : Nat) : Int × Bool :=
  if td_write td then (0, false)
  else ((if GoStoragePrepopulateFile bytesRead f.io_size then 0 else EIO), true)

/-- A `struct timespec` as passed to `go_storage_getevents` (the shim never
reads it; see the TODO in the C source). -/
structure Timespec where
  tv_sec : Int
  tv_nsec : Int
deriving DecidableEq, Repr

/-- The engine's per-session completion tracker.
Modelled from the spec: a capacity-bounded registry holding the correlation
tokens of in-flight requests, a bounded ordered collection of
finished-but-not-yet-retrieved results (token, success), and the results
already claimed by `await` but not yet handed out by `retrieve`. -/
structure GoTracker where
  capacity : Nat
  inflight : List Nat
  finished : List (Nat × Bool)
  claimed : List (Nat × Bool)
deriving DecidableEq, Repr

/-- The tracker a fresh session starts with: empty, sized to `capacity`. -/
def initTracker (capacity : Nat) : GoTracker :=
  { capacity := capacity, inflight := [], finished := [], claimed := [] }

/-- Requests currently occupying tracker capacity (in-flight plus
finished-unretrieved plus claimed-unretrieved). -/
def trackerOutstanding (tr : GoTracker) : Nat :=
  tr.inflight.length + tr.finished.length + tr.claimed.length

/-- The engine's `submit` on the tracker.
Modelled from the spec: registers a new in-flight request under the given
correlation token; fails (negative result) if capacity is saturated. -/
def trackerSubmit (tr : GoTracker) (token : Nat) : Int × GoTracker :=
  if tr.capacity ≤ trackerOutstanding tr then (-1, tr)
  else (FIO_Q_QUEUED, { tr with inflight := tr.inflight ++ [token] })

/-- Remove the first occurrence of `t` from a token list. -/
def removeOne : List Nat → Nat → List Nat
  | [], _ => []
  | x :: xs, t => if x = t then xs else x :: removeOne xs t

/-- The engine's `complete` on the tracker.
Modelled from the spec: moves the request from in-flight to
finished-unretrieved, recording its success flag; a token not in flight
leaves the tracker unchanged. -/
def trackerComplete (tr : GoTracker) (token : Nat) (ok : Bool) : GoTracker :=
  if token ∈ tr.inflight then
    { tr with inflight := removeOne tr.inflight token,
              finished := tr.finished ++ [(token, ok)] }
  else tr

/-- `GoStorageAwaitCompletions`, the engine's `await(min, max)`.
Modelled from the spec: blocks until at least `min` requests are
finished-unretrieved or the tracker is torn down (`destroyed`); on teardown
it returns a negative sentinel, otherwise it claims up to `max` of the
finished results for retrieval and returns how many it claimed.  The
blocking is modelled by the caller assuming `min ≤ tr.finished.length` at
the moment the call returns. -/
def GoStorageAwaitCompletions (tr : GoTracker) (destroyed : Bool)
    (min max : Nat) : Int × GoTracker :=
  if destroyed then (-1, tr)
  else
    (Int.ofNat (Nat.min tr.finished.length max),
     { tr with finished := tr.finished.drop (Nat.min tr.finished.length max),
               claimed := tr.claimed ++
                 tr.finished.take (Nat.min tr.finished.length max) })

/-- `GoStorageGetEvent`, the engine's `retrieve`.
Modelled from the spec: returns exactly one previously claimed finished
request (its token and success flag), removing it; calling it with nothing
claimed is an error (`none`). -/
def GoStorageGetEvent (tr : GoTracker) : Option (Nat × Bool) × GoTracker :=
  match tr.claimed with
  | [] => (none, tr)
  | e :: rest => (some e, { tr with claimed := rest })

/-- `go_storage_getevents` from the shim: calls the engine's await and maps
a negative result to the sentinel `- EIO`.  The timespec argument `t` is
accepted but never read (TODO in the C source). -/
def go_storage_getevents (tr : GoTracker) (destroyed : Bool) (min max : Nat)
    (t : Option Timespec) : Int × GoTracker :=
  ((if (GoStorageAwaitCompletions tr destroyed min max).1 < 0 then - EIO
    else (GoStorageAwaitCompletions tr destroyed min max).1),
   (GoStorageAwaitCompletions tr destroyed min max).2)

/-- One engine-level operation on a session's tracker, for trace-based
statements about submitted and retrieved correlation tokens. -/
inductive EngineOp where
  | submit (token : Nat)
  | complete (token : Nat) (ok : Bool)
  | await (min max : Nat)
  | getEvent
deriving DecidableEq, Repr

/-- Run one engine operation; the second component lists the correlation
tokens handed back to the caller by this operation. -/
def stepOp (tr : GoTracker) : EngineOp → GoTracker × List Nat
  | EngineOp.submit t => ((trackerSubmit tr t).2, [])
  | EngineOp.complete t ok => (trackerComplete tr t ok, [])
  | EngineOp.await mn mx => ((GoStorageAwaitCompletions tr false mn mx).2, [])
  | EngineOp.getEvent =>
      match GoStorageGetEvent tr with
      | (some e, tr2) => (tr2, [e.1])
      | (none, tr2) => (tr2, [])

/-- Run a sequence of engine operations, collecting all retrieved tokens. -/
def runOps (tr : GoTracker) : List EngineOp → GoTracker × List Nat
  | [] => (tr, [])
  | op :: ops =>
      ((runOps (stepOp tr op).1 ops).1,
       (stepOp tr op).2 ++ (runOps (stepOp tr op).1 ops).2)

/-- The token a single operation submits, if any. -/
def opSubmitted : EngineOp → List Nat
  | EngineOp.submit t => [t]
  | _ => []

/-- All correlation tokens submitted along a trace. -/
def submittedTokens : List EngineOp → List Nat
  | [] => []
  | op :: ops => opSubmitted op ++ submittedTokens ops

/-- All correlation tokens currently stored anywhere in the tracker. -/
def tokensOf (tr : GoTracker) : List Nat :=
  tr.inflight ++ tr.finished.map Prod.fst ++ tr.claimed.map Prod.fst

/-- Access direction of an engine file handle. -/
inductive Direction where
  | readonly
  | writeonly
deriving DecidableEq, Repr

/-- An engine file handle.
Modelled from the spec: a direction-tagged open resource; write-only
handles carry the current write cursor. -/
structure GoFile where
  direction : Direction
  cursor : Nat
deriving DecidableEq, Repr

/-- Submission-time offset validation.
Modelled from the spec: read-only handles accept any absolute offset;
write-only handles accept an offset only if it equals the current cursor. -/
def goQueueValidate (f : GoFile) (offset : Nat) : Bool :=
  match f.direction with
  | Direction.readonly => true
  | Direction.writeonly => offset == f.cursor

/-- `GoStorageQueue`, the engine's submission entry point.
Modelled from the spec: validates direction-appropriate offset semantics,
then registers the request with the tracker via `submit`; returns a
negative result when validation or registration fails. -/
def GoStorageQueue (f : GoFile) (tr : GoTracker) (token offset buflen : Nat) :
    Int × GoTracker :=
  if goQueueValidate f offset then trackerSubmit tr token
  else (-1, tr)

/-- Completion-time cursor update.
Modelled from the spec: the scheduled execution advances the write cursor
by the written length on success of a write-only request; reads and failed
writes leave the handle unchanged. -/
def goExecComplete (f : GoFile) (length : Nat) (success : Bool) : GoFile :=
  if f.direction = Direction.writeonly ∧ success = true then
    { f with cursor := f.cursor + length }
  else f

/-- C1: on a session whose job direction requests both read and write
access, `go_storage_open_file` returns EINVAL (distinguishable from the
generic EIO), issues no engine open call, and leaves the `fio_file` — in
particular its `engine_data` slot — unchanged. -/
theorem open_file_rejects_rw (td : ThreadData) (f : FioFile)
    (openR openW : Nat) (h : td_rw td = true) :
    go_storage_open_file td f openR openW = ( EINVAL, f, []) ∧ EINVAL ≠ EIO := by
  constructor
  · simp [go_storage_open_file, h]
  · decide

/-- Witness for C1 at a concrete mixed read-write session. -/
theorem open_file_rejects_rw_witness :
    go_storage_open_file (⟨none, 4, false, 3⟩ : ThreadData)
        (⟨"f", none, 0⟩ : FioFile) 7 9 = ( EINVAL, ⟨"f", none, 0⟩, [])
    ∧ EINVAL ≠ EIO :=
  open_file_rejects_rw ⟨none, 4, false, 3⟩ ⟨"f", none, 0⟩ 7 9 (by decide)

/-- C3: when the engine's queue call returns a negative result,
`go_storage_queue` marks the request failed (error := EIO) and returns
FIO_Q_COMPLETED; a nonnegative result is returned unchanged and the
request — in particular its error field — is untouched. -/
theorem queue_failure_sync (iou : IoU) (result : Int) :
    (result < 0 →
       go_storage_queue iou result = (FIO_Q_COMPLETED, { iou with error := EIO }))
  ∧ (0 ≤ result → go_storage_queue iou result = (result, iou)) := by
  constructor
  · intro h
    simp [go_storage_queue, h]
  · intro h
    simp [go_storage_queue, not_lt.mpr h]

/-- Witness for C3 at a concrete request, on a failing and on a queued
engine result. -/
theorem queue_failure_sync_witness :
    go_storage_queue (⟨0, 512, 0⟩ : IoU) (-1)
        = (FIO_Q_COMPLETED, { (⟨0, 512, 0⟩ : IoU) with error := EIO })
    ∧ go_storage_queue (⟨0, 512, 0⟩ : IoU) 1 = (1, (⟨0, 512, 0⟩ : IoU)) :=
  ⟨(queue_failure_sync ⟨0, 512, 0⟩ (-1)).1 (by decide),
   (queue_failure_sync ⟨0, 512, 0⟩ 1).2 (by decide)⟩

/-- C4: the result of `go_storage_getevents` — both the returned count and
the resulting tracker state — is identical for any two values of the
caller-supplied timeout argument, including a null timespec. -/
theorem getevents_timeout_ignored (tr : GoTracker) (destroyed : Bool)
    (min max : Nat) (t1 t2 : Option Timespec) :
    go_storage_getevents tr destroyed min max t1
      = go_storage_getevents tr destroyed min max t2 := rfl

/-- C7: on a write-direction job `go_storage_prepopulate_file` returns
success without invoking the engine's prepopulate operation; on a
read-direction job it invokes the engine and returns success exactly when
the full requested size was read, and EIO otherwise. -/
theorem prepopulate_direction (td : ThreadData) (f : FioFile) (bytesRead : Nat) :
    (td_write td = true → go_storage_prepopulate_file td f bytesRead = (0, false))
  ∧ (td_read td = true → td_write td = false →
       (go_storage_prepopulate_file td f bytesRead).2 = true
     ∧ ((go_storage_prepopulate_file td f bytesRead).1 = 0 ↔
          bytesRead = f.io_size)
     ∧ ((go_storage_prepopulate_file td f bytesRead).1 = EIO ↔
          bytesRead ≠ f.io_size)) := by
  constructor
  · intro h
    simp [go_storage_prepopulate_file, h]
  · intro _ hw
    refine ⟨by simp [go_storage_prepopulate_file, hw], ?_, ?_⟩
    · by_cases hb : bytesRead = f.io_size <;>
        simp [go_storage_prepopulate_file, hw, GoStoragePrepopulateFile, hb, EIO]
    · by_cases hb : bytesRead = f.io_size <;>
        simp [go_storage_prepopulate_file, hw, GoStoragePrepopulateFile, hb, EIO]

/-- Witness for C7: a write job skips the engine; a read job succeeds on a
full read and fails with EIO on a short read. -/
theorem prepopulate_direction_witness :
    go_storage_prepopulate_file (⟨none, 4, false, 2⟩ : ThreadData)
        (⟨"f", none, 10⟩ : FioFile) 0 = (0, false)
    ∧ (go_storage_prepopulate_file (⟨none, 4, false, 1⟩ : ThreadData)
        (⟨"f", none, 10⟩ : FioFile) 10).1 = 0
    ∧ (go_storage_prepopulate_file (⟨none, 4, false, 1⟩ : ThreadData)
        (⟨"f", none, 10⟩ : FioFile) 3).1 = EIO :=
  ⟨(prepopulate_direction ⟨none, 4, false, 2⟩ ⟨"f", none, 10⟩ 0).1 (by decide),
   ((prepopulate_direction ⟨none, 4, false, 1⟩ ⟨"f", none, 10⟩ 10).2
      (by decide) (by decide)).2.1.mpr (by decide),
   ((prepopulate_direction ⟨none, 4, false, 1⟩ ⟨"f", none, 10⟩ 3).2
      (by decide) (by decide)).2.2.mpr (by decide)⟩

/-- C8: `go_storage_close_file` clears the file's `engine_data` slot
whether or not the engine close succeeded, returning 0 on success and EIO
on failure. -/
theorem close_file_clears_engine_data (f : FioFile) (ok : Bool) :
    (go_storage_close_file f ok).2.engine_data = none
  ∧ (go_storage_close_file f ok).1 = (if ok then 0 else EIO) := by
  constructor <;> rfl

/-- C9: `go_storage_event` is free of a null-pointer write exactly when a
failed completion never carries a null token; on a failed completion with a
non-null token it returns that token with its error field set to EIO, and
a successful completion's token passes through untouched. -/
theorem event_null_safety (r0 : Option IoU) (r1 : Bool) :
    (go_storage_event r0 r1 ≠ Except.error () ↔ (r1 = false → r0 ≠ none))
  ∧ (∀ iou : IoU, r1 = false → r0 = some iou →
       go_storage_event r0 r1 = Except.ok (some { iou with error := EIO }))
  ∧ (r1 = true → go_storage_event r0 r1 = Except.ok r0) := by
  refine ⟨?_, ?_, ?_⟩
  · cases r1 <;> cases r0 <;> simp [go_storage_event]
  · intro iou h1 h0
    subst h1; subst h0
    simp [go_storage_event]
  · intro h1
    subst h1
    simp [go_storage_event]

/-- Witness for C9: at a failed completion the null token is the one
dereferenced case, and a concrete non-null token gets EIO written. -/
theorem event_null_safety_witness :
    go_storage_event (some ⟨0, 0, 0⟩) false
        = Except.ok (some { (⟨0, 0, 0⟩ : IoU) with error := EIO })
    ∧ ¬ (go_storage_event none false ≠ Except.error ()) :=
  ⟨(event_null_safety (some ⟨0, 0, 0⟩) false).2.1 ⟨0, 0, 0⟩ rfl rfl,
   fun h => ((event_null_safety none false).1.mp h rfl) rfl⟩

/-- C10: `go_storage_init` on a session whose tracker slot is already set
returns 0 immediately, invokes no engine call and changes nothing; after a
first successful call, a second call (as fio makes through both the setup
and init callbacks) is such a no-op, so exactly one tracker is created. -/
theorem init_idempotent (td : ThreadData) (h r1 r2 : Nat) :
    (td.io_ops_data = some h → go_storage_init td r1 = (0, td, false))
  ∧ (td.io_ops_data = none → r1 ≠ 0 →
       (go_storage_init td r1).2.1.io_ops_data = some r1
     ∧ go_storage_init (go_storage_init td r1).2.1 r2
         = (0, (go_storage_init td r1).2.1, false)) := by
  constructor
  · intro hs
    simp [go_storage_init, hs]
  · intro hn hr
    simp [go_storage_init, hn, hr]

/-- Witness for C10: a fresh session, initialised once successfully, is
left untouched by the second init invocation. -/
theorem init_idempotent_witness :
    (go_storage_init (⟨none, 4, false, 1⟩ : ThreadData) 5).2.1.io_ops_data = some 5
    ∧ go_storage_init (go_storage_init (⟨none, 4, false, 1⟩ : ThreadData) 5).2.1 9
        = (0, (go_storage_init (⟨none, 4, false, 1⟩ : ThreadData) 5).2.1, false) :=
  (init_idempotent ⟨none, 4, false, 1⟩ 0 5 9).2 rfl (by decide)

/-- C2: with `0 ≤ min ≤ max ≤ capacity`, polling a destroyed tracker
returns the sentinel `- EIO`; otherwise (with at least `min` completions
finished, the condition under which the blocking await returns) the count
lies in `[min, max]`; and with `min = 0` the count lies in `[0, max]` with
no condition on the finished backlog (the call never blocks). -/
theorem getevents_bounds (tr : GoTracker) (min max : Nat) (t : Option Timespec)
    (hmm : min ≤ max) (hcap : max ≤ tr.capacity) :
    ((go_storage_getevents tr true min max t).1 = - EIO)
  ∧ (min ≤ tr.finished.length →
       Int.ofNat min ≤ (go_storage_getevents tr false min max t).1
     ∧ (go_storage_getevents tr false min max t).1 ≤ Int.ofNat max)
  ∧ (min = 0 →
       0 ≤ (go_storage_getevents tr false min max t).1
     ∧ (go_storage_getevents tr false min max t).1 ≤ Int.ofNat max) := by
  refine ⟨?_, ?_, ?_⟩
  · simp [go_storage_getevents, GoStorageAwaitCompletions]
  · intro hlen
    have hval : (go_storage_getevents tr false min max t).1
        = Int.ofNat (Nat.min tr.finished.length max) := by
      simp [go_storage_getevents, GoStorageAwaitCompletions]
    rw [hval]
    constructor
    · exact Int.ofNat_le.mpr (Nat.le_min.mpr ⟨hlen, hmm⟩)
    · exact Int.ofNat_le.mpr (Nat.min_le_right _ _)
  · intro _
    have hval : (go_storage_getevents tr false min max t).1
        = Int.ofNat (Nat.min tr.finished.length max) := by
      simp [go_storage_getevents, GoStorageAwaitCompletions]
    rw [hval]
    exact ⟨Int.ofNat_nonneg _, Int.ofNat_le.mpr (Nat.min_le_right _ _)⟩

/-- Witness for C2: a tracker of capacity 2 with one finished completion,
polled with min = 1, max = 2, and the same tracker destroyed. -/
theorem getevents_bounds_witness :
    (go_storage_getevents (⟨2, [], [(7, true)], []⟩ : GoTracker)
        true 1 2 none).1 = - EIO
    ∧ Int.ofNat 1 ≤ (go_storage_getevents (⟨2, [], [(7, true)], []⟩ : GoTracker)
        false 1 2 none).1
    ∧ (go_storage_getevents (⟨2, [], [(7, true)], []⟩ : GoTracker)
        false 1 2 none).1 ≤ Int.ofNat 2 :=
  ⟨(getevents_bounds ⟨2, [], [(7, true)], []⟩ 1 2 none (by decide) (by decide)).1,
   ((getevents_bounds ⟨2, [], [(7, true)], []⟩ 1 2 none (by decide)
       (by decide)).2.1 (by decide)).1,
   ((getevents_bounds ⟨2, [], [(7, true)], []⟩ 1 2 none (by decide)
       (by decide)).2.1 (by decide)).2⟩

/-- C6: on a write-only handle a submission at an offset other than the
current cursor is rejected by the engine's queue call; a submission exactly
at the cursor is accepted (given tracker room); a successful write advances
the cursor by exactly the written length, and a second submission at the
advanced cursor is again accepted. -/
theorem writeonly_sequential_cursor (f : GoFile) (tr tr2 : GoTracker)
    (token token2 offset length : Nat)
    (hw : f.direction = Direction.writeonly) :
    (offset ≠ f.cursor → (GoStorageQueue f tr token offset length).1 = -1)
  ∧ (trackerOutstanding tr < tr.capacity →
       (GoStorageQueue f tr token f.cursor length).1 = FIO_Q_QUEUED)
  ∧ (goExecComplete f length true).cursor = f.cursor + length
  ∧ (trackerOutstanding tr2 < tr2.capacity →
       (GoStorageQueue (goExecComplete f length true) tr2 token2
          (f.cursor + length) length).1 = FIO_Q_QUEUED) := by
  refine ⟨?_, ?_, ?_, ?_⟩
  · intro hoff
    simp [GoStorageQueue, goQueueValidate, hw, hoff]
  · intro hroom
    simp [GoStorageQueue, goQueueValidate, hw, trackerSubmit, not_le.mpr hroom]
  · simp [goExecComplete, hw]
  · intro hroom
    simp [GoStorageQueue, goQueueValidate, goExecComplete, hw, trackerSubmit,
      not_le.mpr hroom]

/-- Witness for C6: a fresh write-only handle rejects offset 5, accepts
offset 0, and after a successful 10-byte write sits at cursor 10 and
accepts offset 10. -/
theorem writeonly_sequential_cursor_witness :
    (GoStorageQueue (⟨Direction.writeonly, 0⟩ : GoFile) (initTracker 4)
        1 5 10).1 = -1
    ∧ (GoStorageQueue (⟨Direction.writeonly, 0⟩ : GoFile) (initTracker 4)
        1 0 10).1 = FIO_Q_QUEUED
    ∧ (goExecComplete (⟨Direction.writeonly, 0⟩ : GoFile) 10 true).cursor = 10
    ∧ (GoStorageQueue (goExecComplete (⟨Direction.writeonly, 0⟩ : GoFile) 10 true)
        (initTracker 4) 2 10 10).1 = FIO_Q_QUEUED :=
  ⟨(writeonly_sequential_cursor ⟨Direction.writeonly, 0⟩ (initTracker 4)
      (initTracker 4) 1 2 5 10 rfl).1 (by decide),
   (writeonly_sequential_cursor ⟨Direction.writeonly, 0⟩ (initTracker 4)
      (initTracker 4) 1 2 5 10 rfl).2.1 (by decide),
   (writeonly_sequential_cursor ⟨Direction.writeonly, 0⟩ (initTracker 4)
      (initTracker 4) 1 2 5 10 rfl).2.2.1,
   (writeonly_sequential_cursor ⟨Direction.writeonly, 0⟩ (initTracker 4)
      (initTracker 4) 1 2 5 10 rfl).2.2.2 (by decide)⟩

/-- Removing one occurrence of a token yields a sublist membership-wise. -/
theorem mem_of_mem_removeOne {x t : Nat} : ∀ {l : List Nat},
    x ∈ removeOne l t → x ∈ l := by
  intro l
  induction l with
  | nil => simp [removeOne]
  | cons a l ih =>
      by_cases ha : a = t
      · intro h
        rw [removeOne, if_pos ha] at h
        exact List.mem_cons_of_mem a h
      · intro h
        rw [removeOne, if_neg ha] at h
        rcases List.mem_cons.mp h with h1 | h2
        · exact h1 ▸ List.mem_cons_self a l
        · exact List.mem_cons_of_mem a (ih h2)

/-- An in-flight token is a token of the tracker. -/
theorem tokensOf_of_inflight {x : Nat} {tr : GoTracker}
    (h : x ∈ tr.inflight) : x ∈ tokensOf tr := by
  simp only [tokensOf, List.mem_append]
  exact Or.inl (Or.inl h)

/-- A finished-unretrieved token is a token of the tracker. -/
theorem tokensOf_of_finished_map {x : Nat} {tr : GoTracker}
    (h : x ∈ tr.finished.map Prod.fst) : x ∈ tokensOf tr := by
  simp only [tokensOf, List.mem_append]
  exact Or.inl (Or.inr h)

/-- A claimed token is a token of the tracker. -/
theorem tokensOf_of_claimed_map {x : Nat} {tr : GoTracker}
    (h : x ∈ tr.claimed.map Prod.fst) : x ∈ tokensOf tr := by
  simp only [tokensOf, List.mem_append]
  exact Or.inr h

/-- A single engine operation introduces no token into the tracker other
than the one a submit operation carries. -/
theorem tokensOf_stepOp {x : Nat} (tr : GoTracker) (op : EngineOp)
    (h : x ∈ tokensOf (stepOp tr op).1) :
    x ∈ tokensOf tr ∨ x ∈ opSubmitted op := by
  cases op with
  | submit t =>
      by_cases hs : tr.capacity ≤ trackerOutstanding tr
      · rw [stepOp, trackerSubmit, if_pos hs] at h
        exact Or.inl h
      · rw [stepOp, trackerSubmit, if_neg hs] at h
        rcases List.mem_append.mp h with h12 | h3
        · rcases List.mem_append.mp h12 with h1 | h2
          · rcases List.mem_append.mp h1 with ha | hb
            · exact Or.inl (tokensOf_of_inflight ha)
            · right
              simpa [opSubmitted] using List.mem_singleton.mp hb
          · exact Or.inl (tokensOf_of_finished_map h2)
        · exact Or.inl (tokensOf_of_claimed_map h3)
  | complete t ok =>
      by_cases hin : t ∈ tr.inflight
      · rw [stepOp, trackerComplete, if_pos hin] at h
        rcases List.mem_append.mp h with h12 | h3
        · rcases List.mem_append.mp h12 with h1 | h2
          · exact Or.inl (tokensOf_of_inflight (mem_of_mem_removeOne h1))
          · rcases List.mem_map.mp h2 with ⟨p, hp, hx⟩
            rcases List.mem_append.mp hp with hp1 | hp2
            · exact Or.inl (hx ▸ tokensOf_of_finished_map
                (List.mem_map_of_mem Prod.fst hp1))
            · have hpt : p = (t, ok) := List.mem_singleton.mp hp2
              subst hpt
              exact Or.inl (hx ▸ tokensOf_of_inflight hin)
        · exact Or.inl (tokensOf_of_claimed_map h3)
      · rw [stepOp, trackerComplete, if_neg hin] at h
        exact Or.inl h
  | await mn mx =>
      rw [stepOp, GoStorageAwaitCompletions, if_neg Bool.false_ne_true] at h
      rcases List.mem_append.mp h with h12 | h3
      · rcases List.mem_append.mp h12 with h1 | h2
        · exact Or.inl (tokensOf_of_inflight h1)
        · rcases List.mem_map.mp h2 with ⟨p, hp, hx⟩
          exact Or.inl (hx ▸ tokensOf_of_finished_map
            (List.mem_map_of_mem Prod.fst (List.mem_of_mem_drop hp)))
      · rcases List.mem_map.mp h3 with ⟨p, hp, hx⟩
        rcases List.mem_append.mp hp with hp1 | hp2
        · exact Or.inl (hx ▸ tokensOf_of_claimed_map
            (List.mem_map_of_mem Prod.fst hp1))
        · exact Or.inl (hx ▸ tokensOf_of_finished_map
            (List.mem_map_of_mem Prod.fst (List.mem_of_mem_take hp2)))
  | getEvent =>
      cases hcl : tr.claimed with
      | nil =>
          rw [stepOp, GoStorageGetEvent, hcl] at h
          exact Or.inl h
      | cons e rest =>
          rw [stepOp, GoStorageGetEvent, hcl] at h
          rcases List.mem_append.mp h with h12 | h3
          · rcases List.mem_append.mp h12 with h1 | h2
            · exact Or.inl (tokensOf_of_inflight h1)
            · exact Or.inl (tokensOf_of_finished_map h2)
          · rcases List.mem_map.mp h3 with ⟨p, hp, hx⟩
            exact Or.inl (hx ▸ tokensOf_of_claimed_map
              (List.mem_map_of_mem Prod.fst
                (hcl.symm ▸ List.mem_cons_of_mem e hp)))

/-- Every token an engine operation hands back to the caller was stored in
the tracker when the operation ran. -/
theorem emitted_stepOp {x : Nat} (tr : GoTracker) (op : EngineOp)
    (h : x ∈ (stepOp tr op).2) : x ∈ tokensOf tr := by
  cases op with
  | submit t => simp [stepOp] at h
  | complete t ok => simp [stepOp] at h
  | await mn mx => simp [stepOp] at h
  | getEvent =>
      cases hcl : tr.claimed with
      | nil =>
          rw [stepOp, GoStorageGetEvent, hcl] at h
          simp at h
      | cons e rest =>
          rw [stepOp, GoStorageGetEvent, hcl] at h
          rw [List.mem_singleton] at h
          subst h
          exact tokensOf_of_claimed_map
            (List.mem_map_of_mem Prod.fst
              (hcl.symm ▸ List.mem_cons_self e rest))

/-- Every token retrieved along a trace was in the tracker initially or was
submitted along the trace. -/
theorem retrieved_runOps {x : Nat} : ∀ (ops : List EngineOp) (tr : GoTracker),
    x ∈ (runOps tr ops).2 → x ∈ tokensOf tr ∨ x ∈ submittedTokens ops := by
  intro ops
  induction ops with
  | nil =>
      intro tr h
      simp [runOps] at h
  | cons op ops ih =>
      intro tr h
      rw [runOps] at h
      rcases List.mem_append.mp h with h1 | h2
      · exact Or.inl (emitted_stepOp tr op h1)
      · rcases ih (stepOp tr op).1 h2 with h3 | h4
        · rcases tokensOf_stepOp tr op h3 with h5 | h6
          · exact Or.inl h5
          · refine Or.inr ?_
            rw [submittedTokens]
            exact List.mem_append.mpr (Or.inl h6)
        · refine Or.inr ?_
          rw [submittedTokens]
          exact List.mem_append.mpr (Or.inr h4)

/-- C5: along any sequence of engine operations on a fresh session tracker,
every correlation token retrieved by the caller is one that was submitted,
unchanged: the engine only ever hands back previously submitted tokens. -/
theorem token_roundtrip (capacity : Nat) (ops : List EngineOp) (x : Nat)
    (hx : x ∈ (runOps (initTracker capacity) ops).2) :
    x ∈ submittedTokens ops := by
  rcases retrieved_runOps ops (initTracker capacity) hx with h | h
  · simp [tokensOf, initTracker] at h
  · exact h

/-- Witness for C5: submit token 42, complete it, await one completion and
retrieve it — the retrieved token is 42 and is among the submitted ones. -/
theorem token_roundtrip_witness :
    (runOps (initTracker 4)
        [EngineOp.submit 42, EngineOp.complete 42 true,
         EngineOp.await 1 1, EngineOp.getEvent]).2 = [42]
    ∧ 42 ∈ submittedTokens
        [EngineOp.submit 42, EngineOp.complete 42 true,
         EngineOp.await 1 1, EngineOp.getEvent] :=
  ⟨by decide,
   token_roundtrip 4
     [EngineOp.submit 42, EngineOp.complete 42 true,
      EngineOp.await 1 1, EngineOp.getEvent] 42 (by decide)⟩

end GoStorage
